import Mathlib

/-!
Shallow embedding of the package-checker agent (a small HTTP service that
parses a natural-language query, fetches package metadata from PyPI or npm,
and assembles a task result).  Python strings are modelled as lists of
characters, JSON values as an inductive type, and the two outbound HTTP
calls as explicit `FetchOutcome` inputs.  All definitions are translated
from `src/services.py`, `src/main.py` and `src/config.py`; the data shapes
from the absent `models.py` are modelled from the specification's data
model section.
-/

/-- Python strings are modelled as lists of characters (ASCII queries). -/
abbrev PyStr := List Char

/-- Helper to write `PyStr` literals. -/
def pstr (s : String) : PyStr := s.data

mutual
/-- JSON values as delivered by `response.json()` and stored in the
normalized package-info dictionaries. -/
inductive JsonVal where
  | jnull
  | jbool (b : Bool)
  | jstr (s : PyStr)
  | jobj (fields : JsonFields)
deriving DecidableEq

/-- The field list of a JSON object / Python dict with string keys.  Keys
produced by JSON parsing are unique, so first-match lookup below coincides
with Python dict lookup. -/
inductive JsonFields where
  | nil
  | cons (key : PyStr) (val : JsonVal) (rest : JsonFields)
deriving DecidableEq
end

/-- Builds a `JsonFields` value from an association list, for readable
dictionary literals. -/
def fieldsOf : List (PyStr × JsonVal) → JsonFields
  | [] => .nil
  | (k, v) :: rest => .cons k v (fieldsOf rest)

/-- Python `k in d` / `d[k]` style lookup: the value at key `k`, if present. -/
def dictLookup : JsonFields → PyStr → Option JsonVal
  | .nil, _ => none
  | .cons k v rest, key => if k = key then some v else dictLookup rest key

/-- Python `d.get(k, default)`. -/
def dictGet (d : JsonFields) (k : PyStr) (dflt : JsonVal) : JsonVal :=
  (dictLookup d k).getD dflt

/-- The ordered list of keys of a dict. -/
def dictKeys : JsonFields → List PyStr
  | .nil => []
  | .cons k _ rest => k :: dictKeys rest

/-- Is a field list empty (for Python truthiness of a dict)? -/
def JsonFields.isNil : JsonFields → Bool
  | .nil => true
  | .cons _ _ _ => false

/-- Python truthiness of a JSON value (`None`, `False`, `""` and an empty
dict are falsy). -/
def pyTruthy : JsonVal → Bool
  | .jnull => false
  | .jbool b => b
  | .jstr s => !s.isEmpty
  | .jobj l => !l.isNil

/-- Python `a or b` on JSON values. -/
def pyOr (a b : JsonVal) : JsonVal :=
  if pyTruthy a then a else b

/-- The Python type name of a JSON value, as it appears in
`AttributeError` messages. -/
def pyTypeName : JsonVal → PyStr
  | .jnull => pstr "NoneType"
  | .jbool _ => pstr "bool"
  | .jstr _ => pstr "str"
  | .jobj _ => pstr "dict"

mutual
/-- Python `repr` of a JSON value (how nested values print inside a
rendered dict). -/
def pyRepr : JsonVal → PyStr
  | .jnull => pstr "None"
  | .jbool true => pstr "True"
  | .jbool false => pstr "False"
  | .jstr s => pstr "'" ++ s ++ pstr "'"
  | .jobj fields => pstr "\x7b" ++ pyReprFields fields ++ pstr "\x7d"

/-- Comma-joined `repr` of the entries of a dict. -/
def pyReprFields : JsonFields → PyStr
  | .nil => []
  | .cons k v .nil => pstr "'" ++ k ++ pstr "': " ++ pyRepr v
  | .cons k v (.cons k' v' rest) =>
    pstr "'" ++ k ++ pstr "': " ++ pyRepr v ++ pstr ", " ++ pyReprFields (.cons k' v' rest)
end

/-- Python `str(v)` for a JSON value: top-level strings print bare, any
other value prints as its `repr` (in particular `str(None) = "None"`). -/
def pyStrOf : JsonVal → PyStr
  | .jstr s => s
  | v => pyRepr v

/-- Does `pat` occur as a contiguous substring (Python `pat in s`)? -/
def containsSub : PyStr → PyStr → Bool
  | [], pat => pat.isEmpty
  | c :: cs, pat => pat.isPrefixOf (c :: cs) || containsSub cs pat

/-- Fuel-indexed body of Python `s.replace(pat, rep)`: at each position,
if the pattern matches, emit the replacement and skip the match, else keep
the character.  For a non-empty pattern, fuel `s.length` suffices. -/
def replaceFuel : Nat → PyStr → PyStr → PyStr → PyStr
  | 0, s, _, _ => s
  | _ + 1, [], _, _ => []
  | n + 1, c :: cs, pat, rep =>
    if pat.isPrefixOf (c :: cs) then rep ++ replaceFuel n ((c :: cs).drop pat.length) pat rep
    else c :: replaceFuel n cs pat rep

/-- Python `s.replace(pat, rep)` for a non-empty pattern (all patterns in
the source are non-empty literals). -/
def pyReplace (s pat rep : PyStr) : PyStr :=
  if pat.isEmpty then s else replaceFuel s.length s pat rep

/-- ASCII lower-casing of one character (the queries handled by the
service are ASCII, where Python `str.lower` acts exactly like this). -/
def pyLowerChar (c : Char) : Char :=
  if 'A' ≤ c && c ≤ 'Z' then Char.ofNat (c.toNat + 32) else c

/-- Python `s.lower()` on ASCII text. -/
def pyLower (s : PyStr) : PyStr := s.map pyLowerChar

/-- Characters removed by Python `str.strip()`. -/
def pySpace (c : Char) : Bool :=
  c = ' ' || c = '\t' || c = '\n' || c = '\r' || c = '\x0b' || c = '\x0c'

/-- Python `s.strip()`. -/
def pyStrip (s : PyStr) : PyStr :=
  ((s.dropWhile pySpace).reverse.dropWhile pySpace).reverse

/-- `PackageChecker.parse_query` (src/services.py lines 52-73): lower-case
the query, delete the five filler phrases everywhere, then detect and
delete ecosystem keywords, npm keywords taking precedence. -/
def parse_query (query : PyStr) : PyStr × Option PyStr :=
  let q := pyLower query
  let q := pyReplace q (pstr "check ") []
  let q := pyReplace q (pstr "version of ") []
  let q := pyReplace q (pstr "latest ") []
  let q := pyReplace q (pstr "info for ") []
  let q := pyReplace q (pstr "about ") []
  if containsSub q (pstr "npm") || containsSub q (pstr "javascript") || containsSub q (pstr "node") then
    let q := pyReplace (pyReplace (pyReplace q (pstr "npm") []) (pstr "javascript") []) (pstr "node") []
    (pyStrip q, some (pstr "npm"))
  else if containsSub q (pstr "pip") || containsSub q (pstr "python") || containsSub q (pstr "pypi") then
    let q := pyReplace (pyReplace (pyReplace q (pstr "pip") []) (pstr "python") []) (pstr "pypi") []
    (pyStrip q, some (pstr "pypi"))
  else (pyStrip q, none)

/-- The observable outcome of the single outbound HTTP GET a registry
client performs.  `ok body` is a 2xx response whose JSON body is the
object `body`; `httpStatus code` means `raise_for_status` raised an
`HTTPStatusError` for status `code`; `exc desc` is any other exception
raised inside the `try` block (network failure, JSON parse failure, ...)
with `str(e) = desc`. -/
inductive FetchOutcome where
  | ok (body : JsonFields)
  | httpStatus (code : Nat)
  | exc (desc : PyStr)
deriving DecidableEq

/-- Calling `.get` on a non-dict raises `AttributeError`; this is the
message Python attaches to it. -/
def attrGetError (v : JsonVal) : PyStr :=
  pstr "'" ++ pyTypeName v ++ pstr "' object has no attribute 'get'"

/-- Evaluates `v.get(...)`-style access: succeeds with the field list when
`v` is a dict, otherwise raises (models the `AttributeError` that the
enclosing `except Exception` block catches). -/
def asDict : JsonVal → Except PyStr JsonFields
  | .jobj l => .ok l
  | v => .error (attrGetError v)

/-- The `found=False` record each registry client returns on failure
(src/services.py lines 97-102 and 127-132). -/
def notFoundDict (source package_name err : PyStr) : JsonFields :=
  fieldsOf
    [ (pstr "found", .jbool false),
      (pstr "source", .jstr source),
      (pstr "name", .jstr package_name),
      (pstr "error", .jstr err) ]

/-- The body of the `try` block of `PackageChecker.get_pypi_package` after
a successful GET (src/services.py lines 85-96): extract `info` and build
the normalized record; raises (as `.error`) if `info` is not a dict. -/
def pypi_success (package_name : PyStr) (body : JsonFields) : Except PyStr JsonFields :=
  match asDict (dictGet body (pstr "info") (.jobj .nil)) with
  | .error e => .error e
  | .ok info => .ok (fieldsOf
    [ (pstr "found", .jbool true),
      (pstr "source", .jstr (pstr "PyPI")),
      (pstr "name", dictGet info (pstr "name") (.jstr package_name)),
      (pstr "version", dictGet info (pstr "version") (.jstr (pstr "Unknown"))),
      (pstr "description", dictGet info (pstr "summary") (.jstr (pstr "No description"))),
      (pstr "author", dictGet info (pstr "author") (.jstr (pstr "Unknown"))),
      (pstr "license", dictGet info (pstr "license") (.jstr (pstr "Unknown"))),
      (pstr "homepage", pyOr (dictGet info (pstr "home_page") .jnull)
                             (dictGet info (pstr "project_url") (.jstr []))),
      (pstr "requires_python", dictGet info (pstr "requires_python") (.jstr (pstr "Any"))) ])

/-- `PackageChecker.get_pypi_package` (src/services.py lines 75-102) as a
function of the package name and the outcome of its single HTTP GET. -/
def get_pypi_package (package_name : PyStr) (outcome : FetchOutcome) : JsonFields :=
  match outcome with
  | .ok body =>
    match pypi_success package_name body with
    | .ok d => d
    | .error msg => notFoundDict (pstr "PyPI") package_name msg
  | .httpStatus code =>
    if code = 404 then notFoundDict (pstr "PyPI") package_name (pstr "Package not found")
    else notFoundDict (pstr "PyPI") package_name (pstr "HTTP " ++ pstr (toString code))
  | .exc desc => notFoundDict (pstr "PyPI") package_name desc

/-- npm's `author` normalization (src/services.py line 122):
`data.get("author", {}).get("name", "Unknown") if
isinstance(data.get("author"), dict) else str(data.get("author", "Unknown"))`. -/
def npmAuthor (body : JsonFields) : JsonVal :=
  match dictLookup body (pstr "author") with
  | some (.jobj fs) => dictGet fs (pstr "name") (.jstr (pstr "Unknown"))
  | some v => .jstr (pyStrOf v)
  | none => .jstr (pyStrOf (.jstr (pstr "Unknown")))

/-- npm's `repository` normalization (src/services.py line 125):
`data.get("repository", {}).get("url", "") if
isinstance(data.get("repository"), dict) else str(data.get("repository", ""))`. -/
def npmRepository (body : JsonFields) : JsonVal :=
  match dictLookup body (pstr "repository") with
  | some (.jobj fs) => dictGet fs (pstr "url") (.jstr [])
  | some v => .jstr (pyStrOf v)
  | none => .jstr (pyStrOf (.jstr []))

/-- The body of the `try` block of `PackageChecker.get_npm_package` after
a successful GET (src/services.py lines 112-126); raises (as `.error`) if
`dist-tags` is present but not a dict. -/
def npm_success (package_name : PyStr) (body : JsonFields) : Except PyStr JsonFields :=
  match asDict (dictGet body (pstr "dist-tags") (.jobj .nil)) with
  | .error e => .error e
  | .ok distTags => .ok (fieldsOf
    [ (pstr "found", .jbool true),
      (pstr "source", .jstr (pstr "npm")),
      (pstr "name", dictGet body (pstr "name") (.jstr package_name)),
      (pstr "version", dictGet distTags (pstr "latest") (.jstr (pstr "Unknown"))),
      (pstr "description", dictGet body (pstr "description") (.jstr (pstr "No description"))),
      (pstr "author", npmAuthor body),
      (pstr "license", dictGet body (pstr "license") (.jstr (pstr "Unknown"))),
      (pstr "homepage", dictGet body (pstr "homepage") (.jstr [])),
      (pstr "repository", npmRepository body) ])

/-- `PackageChecker.get_npm_package` (src/services.py lines 104-132) as a
function of the package name and the outcome of its single HTTP GET. -/
def get_npm_package (package_name : PyStr) (outcome : FetchOutcome) : JsonFields :=
  match outcome with
  | .ok body =>
    match npm_success package_name body with
    | .ok d => d
    | .error msg => notFoundDict (pstr "npm") package_name msg
  | .httpStatus code =>
    if code = 404 then notFoundDict (pstr "npm") package_name (pstr "Package not found")
    else notFoundDict (pstr "npm") package_name (pstr "HTTP " ++ pstr (toString code))
  | .exc desc => notFoundDict (pstr "npm") package_name desc

/-- The combined not-found record of the fallback path
(src/services.py lines 148-152); note it carries no `source` key and no
per-registry error strings. -/
def smartNotFound (package_name : PyStr) : JsonFields :=
  fieldsOf
    [ (pstr "found", .jbool false),
      (pstr "name", .jstr package_name),
      (pstr "error", .jstr (pstr "Package not found in PyPI or npm")) ]

/-- `PackageChecker.get_package_smart` (src/services.py lines 134-152):
try PyPI first, fall back to npm, else the combined not-found record.  The
two `FetchOutcome` arguments are the outcomes the respective client would
observe if called. -/
def get_package_smart (package_name : PyStr) (pypiOutcome npmOutcome : FetchOutcome) : JsonFields :=
  let pypi_result := get_pypi_package package_name pypiOutcome
  if pyTruthy (dictGet pypi_result (pstr "found") .jnull) then pypi_result
  else
    let npm_result := get_npm_package package_name npmOutcome
    if pyTruthy (dictGet npm_result (pstr "found") .jnull) then npm_result
    else smartNotFound package_name

/-- `PackageChecker.format_response` (src/services.py lines 154-188). -/
def format_response (package_info : JsonFields) (package_name : PyStr) : PyStr :=
  if !pyTruthy (dictGet package_info (pstr "found") .jnull) then
    let error_msg := dictGet package_info (pstr "error") (.jstr (pstr "Unknown error"))
    pstr "❌ Could not find package '" ++ package_name ++ pstr "'\n\nError: " ++ pyStrOf error_msg
  else
    let source := dictGet package_info (pstr "source") (.jstr (pstr "Unknown"))
    let name := dictGet package_info (pstr "name") (.jstr package_name)
    let version := dictGet package_info (pstr "version") (.jstr (pstr "Unknown"))
    let description := dictGet package_info (pstr "description") (.jstr (pstr "No description"))
    let author := dictGet package_info (pstr "author") (.jstr (pstr "Unknown"))
    let license_info := dictGet package_info (pstr "license") (.jstr (pstr "Unknown"))
    let homepage := dictGet package_info (pstr "homepage") (.jstr [])
    let response := pstr "📦 " ++ pyStrOf name ++ pstr " (from " ++ pyStrOf source ++ pstr ")\n\n"
    let response := response ++ pstr "Version: " ++ pyStrOf version ++ pstr "\n"
    let response := response ++ pstr "Description: " ++ pyStrOf description ++ pstr "\n"
    let response := response ++ pstr "Author: " ++ pyStrOf author ++ pstr "\n"
    let response := response ++ pstr "License: " ++ pyStrOf license_info ++ pstr "\n"
    let response :=
      if pyTruthy homepage then response ++ pstr "Homepage: " ++ pyStrOf homepage ++ pstr "\n"
      else response
    if source = .jstr (pstr "PyPI") then
      let requires_python := dictGet package_info (pstr "requires_python") (.jstr (pstr "Any"))
      response ++ pstr "Requires Python: " ++ pyStrOf requires_python ++ pstr "\n" ++
        pstr "\nInstall: `pip install " ++ pyStrOf name ++ pstr "`"
    else if source = .jstr (pstr "npm") then
      let repository := dictGet package_info (pstr "repository") (.jstr [])
      let response :=
        if pyTruthy repository then response ++ pstr "Repository: " ++ pyStrOf repository ++ pstr "\n"
        else response
      response ++ pstr "\nInstall: `npm install " ++ pyStrOf name ++ pstr "`"
    else response

/-- Modelled from the spec: `models.py` is not among the sources.  A
message part is tagged by `kind` ("text" or "data") and carries a string
or a structured payload (spec data-model section). -/
structure MessagePart where
  kind : PyStr
  text : PyStr := []
  data : JsonVal := .jnull
deriving DecidableEq

/-- Modelled from the spec: a conversational message — role, ordered
parts, optional task-association id (spec data-model section). -/
structure A2AMessage where
  role : PyStr
  parts : List MessagePart
  taskId : Option PyStr := none
deriving DecidableEq

/-- Modelled from the spec: task status — state and the agent's reply
message (spec data-model section). -/
structure TaskStatus where
  state : PyStr
  message : A2AMessage
deriving DecidableEq

/-- Modelled from the spec: an artifact — name plus parts (spec
data-model section). -/
structure Artifact where
  name : PyStr
  parts : List MessagePart
deriving DecidableEq

/-- Modelled from the spec: the task-result envelope (spec data-model
section). -/
structure TaskResult where
  id : PyStr
  contextId : PyStr
  status : TaskStatus
  artifacts : List Artifact
  history : List A2AMessage
deriving DecidableEq

/-- The query-extraction loop of `process_package_query`
(src/services.py lines 208-212): the stripped text of the first
text-kind part, or `""` when there is none. -/
def extract_query_text : List MessagePart → PyStr
  | [] => []
  | p :: ps => if p.kind = pstr "text" then pyStrip p.text else extract_query_text ps

/-- Python `given or str(uuid4())` for the context/task ids
(src/services.py lines 199-200): a missing or empty id is replaced by the
freshly generated token. -/
def pyOrFresh (given : Option PyStr) (fresh : PyStr) : PyStr :=
  match given with
  | some s => if s.isEmpty then fresh else s
  | none => fresh

/-- The registry dispatch of `process_package_query`
(src/services.py lines 224-230): an explicit hint selects a single
client, otherwise the sequential fallback runs. -/
def fetch_package_info (package_name : PyStr) (package_type : Option PyStr)
    (pypiOutcome npmOutcome : FetchOutcome) : JsonFields :=
  if package_type = some (pstr "pypi") then get_pypi_package package_name pypiOutcome
  else if package_type = some (pstr "npm") then get_npm_package package_name npmOutcome
  else get_package_smart package_name pypiOutcome npmOutcome

/-- `process_package_query` (src/services.py lines 190-261).  The fresh
uuid tokens and the HTTP outcomes are explicit inputs; a raised
`ValueError` is modelled as `.error` carrying its message. -/
def process_package_query (messages : List A2AMessage)
    (context_id task_id : Option PyStr) (fresh_context fresh_task : PyStr)
    (pypiOutcome npmOutcome : FetchOutcome) : Except PyStr TaskResult :=
  let context_id := pyOrFresh context_id fresh_context
  let task_id := pyOrFresh task_id fresh_task
  match messages.getLast? with
  | none => .error (pstr "No message provided")
  | some user_message =>
    let query_text := extract_query_text user_message.parts
    if query_text.isEmpty then .error (pstr "No text content in message")
    else
      let pq := parse_query query_text
      let package_info := fetch_package_info pq.1 pq.2 pypiOutcome npmOutcome
      let response_text := format_response package_info pq.1
      let response_message : A2AMessage :=
        { role := pstr "agent",
          parts := [{ kind := pstr "text", text := response_text }],
          taskId := some task_id }
      .ok { id := task_id,
            contextId := context_id,
            status := { state := pstr "completed", message := response_message },
            artifacts := [{ name := pstr "package_info",
                            parts := [{ kind := pstr "data", data := .jobj package_info }] }],
            history := messages ++ [response_message] }

/-- The observable verdict of the JSON-RPC envelope checks of
`a2a_endpoint`: an error reply with an HTTP status and a JSON-RPC error
code, acceptance of a recognized method, or an exception that escapes
the endpoint entirely (`crash`), in which case the hosting framework
sends its plain 500 response with no JSON-RPC error object. -/
inductive EnvelopeCheck where
  | reject (httpStatus : Nat) (code : Int)
  | accept (method : PyStr)
  | crash
deriving DecidableEq

/-- Modelled from the spec: `models.py`'s `JSONRPCRequest` pydantic
validation (src/main.py line 105) is not among the sources.  Per the
spec's external-interface section a request carries a `method` string and
a `params` object; validation failure raises a `ValidationError` (a
`ValueError`), which src/main.py lines 149-161 turn into a 400 reply with
code -32602. -/
def jsonrpc_request_valid (fields : JsonFields) : Option PyStr :=
  match dictLookup fields (pstr "method"), dictLookup fields (pstr "params") with
  | some (.jstr m), some (.jobj _) => some m
  | _, _ => none

/-- The envelope-validation prefix of `a2a_endpoint`
(src/main.py lines 55-131) as a function of the parsed request body.  A
truthy non-object body makes `body.get` raise `AttributeError`, which
reaches the final `except Exception` handler (lines 163-191); but that
handler evaluates `body.get("id") if body else None` (line 184), which
raises `AttributeError` again on the same truthy non-object body, so the
exception escapes the endpoint and the framework answers with a plain
500 carrying no JSON-RPC error object (`crash`). -/
def a2a_validate (body : JsonVal) : EnvelopeCheck :=
  if !pyTruthy body then .reject 400 (-32600)
  else
    match body with
    | .jobj fields =>
      if dictGet fields (pstr "jsonrpc") .jnull ≠ .jstr (pstr "2.0") then .reject 400 (-32600)
      else if (dictLookup fields (pstr "id")).isNone then .reject 400 (-32600)
      else
        match jsonrpc_request_valid fields with
        | none => .reject 400 (-32602)
        | some m =>
          if m = pstr "message/send" then .accept m
          else if m = pstr "execute" then .accept m
          else .reject 400 (-32601)
    | _ => .crash

/-- The query interpreter exactly as the spec words it: lower-case, strip
the fixed filler-phrase list wherever the phrases occur, then scan for
npm keywords (removing them on a match), else PyPI keywords, and return
the trimmed remainder.  Stated over the same string primitives so it can
be compared with the source translation `parse_query`. -/
def interpret_spec (text : PyStr) : PyStr × Option PyStr :=
  let fillers := [pstr "check ", pstr "version of ", pstr "latest ", pstr "info for ", pstr "about "]
  let stripped := fillers.foldl (fun acc f => pyReplace acc f []) (pyLower text)
  let npmKeywords := [pstr "npm", pstr "javascript", pstr "node"]
  let pypiKeywords := [pstr "pip", pstr "python", pstr "pypi"]
  if npmKeywords.any (fun k => containsSub stripped k) then
    (pyStrip (npmKeywords.foldl (fun acc k => pyReplace acc k []) stripped), some (pstr "npm"))
  else if pypiKeywords.any (fun k => containsSub stripped k) then
    (pyStrip (pypiKeywords.foldl (fun acc k => pyReplace acc k []) stripped), some (pstr "pypi"))
  else (pyStrip stripped, none)

/-- Concatenation of the pieces of a formatted response. -/
def concatAll : List PyStr → PyStr
  | [] => []
  | s :: rest => s ++ concatAll rest

/-- The response formatter as the spec words it: a failure message naming
the requested package and the captured error for not-found records;
otherwise a header naming the package and source, Version / Description /
Author / License lines, a Homepage line only if the homepage is
non-empty, and a source-specific tail (a "Requires Python" line plus a
pip install hint for PyPI; an optional Repository line plus an npm
install hint for npm). -/
def format_spec (info : JsonFields) (requestedName : PyStr) : PyStr :=
  if pyTruthy (dictGet info (pstr "found") .jnull) then
    let name := pyStrOf (dictGet info (pstr "name") (.jstr requestedName))
    let source := dictGet info (pstr "source") (.jstr (pstr "Unknown"))
    let headerLine := pstr "📦 " ++ name ++ pstr " (from " ++ pyStrOf source ++ pstr ")\n\n"
    let versionLine := pstr "Version: " ++ pyStrOf (dictGet info (pstr "version") (.jstr (pstr "Unknown"))) ++ pstr "\n"
    let descriptionLine := pstr "Description: " ++ pyStrOf (dictGet info (pstr "description") (.jstr (pstr "No description"))) ++ pstr "\n"
    let authorLine := pstr "Author: " ++ pyStrOf (dictGet info (pstr "author") (.jstr (pstr "Unknown"))) ++ pstr "\n"
    let licenseLine := pstr "License: " ++ pyStrOf (dictGet info (pstr "license") (.jstr (pstr "Unknown"))) ++ pstr "\n"
    let homepage := dictGet info (pstr "homepage") (.jstr [])
    let homepageLines :=
      if pyTruthy homepage then [pstr "Homepage: " ++ pyStrOf homepage ++ pstr "\n"] else []
    let tail :=
      if source = .jstr (pstr "PyPI") then
        [pstr "Requires Python: " ++ pyStrOf (dictGet info (pstr "requires_python") (.jstr (pstr "Any"))) ++ pstr "\n",
         pstr "\nInstall: `pip install " ++ name ++ pstr "`"]
      else if source = .jstr (pstr "npm") then
        (if pyTruthy (dictGet info (pstr "repository") (.jstr [])) then
          [pstr "Repository: " ++ pyStrOf (dictGet info (pstr "repository") (.jstr [])) ++ pstr "\n"]
         else []) ++
        [pstr "\nInstall: `npm install " ++ name ++ pstr "`"]
      else []
    concatAll ([headerLine, versionLine, descriptionLine, authorLine, licenseLine] ++ homepageLines ++ tail)
  else
    pstr "❌ Could not find package '" ++ requestedName ++ pstr "'\n\nError: " ++
      pyStrOf (dictGet info (pstr "error") (.jstr (pstr "Unknown error")))

/-!  ## Theorems  -/

set_option maxHeartbeats 2000000 in
/-- Claim C3: the query interpreter lower-cases, removes every occurrence
of the five filler phrases, detects npm keywords before PyPI keywords and
removes the matched group, and returns the trimmed remainder — i.e. the
source's `parse_query` coincides with the interpreter the spec describes —
and the three documented examples evaluate as stated. -/
theorem C3_interpreter :
    (∀ text, parse_query text = interpret_spec text) ∧
    parse_query (pstr "Check fastapi") = (pstr "fastapi", none) ∧
    parse_query (pstr "npm package react") = (pstr "package react", some (pstr "npm")) ∧
    parse_query (pstr "python package django") = (pstr "package django", some (pstr "pypi")) := by
  refine ⟨fun text => ?_, by decide, by decide, by decide⟩
  simp only [parse_query, interpret_spec, List.foldl_cons, List.foldl_nil,
    List.any_cons, List.any_nil, Bool.or_false, Bool.or_assoc]

/-- Claim C5: with hint "pypi" the resolution returns exactly the PyPI
client's result (for any npm outcome whatsoever, so the npm client is
never consulted), and with hint "npm" it returns exactly the npm client's
result (for any PyPI outcome whatsoever). -/
theorem C5_hint_dispatch (package_name : PyStr) (pypiOutcome npmOutcome : FetchOutcome) :
    fetch_package_info package_name (some (pstr "pypi")) pypiOutcome npmOutcome
      = get_pypi_package package_name pypiOutcome ∧
    fetch_package_info package_name (some (pstr "npm")) pypiOutcome npmOutcome
      = get_npm_package package_name npmOutcome := by
  constructor <;> rfl

/-- Every result of the PyPI client carries a boolean `found` field, and a
string `error` field whenever `found` is false. -/
theorem pypi_found_dichotomy (package_name : PyStr) (outcome : FetchOutcome) :
    dictGet (get_pypi_package package_name outcome) (pstr "found") .jnull = .jbool true ∨
    (dictGet (get_pypi_package package_name outcome) (pstr "found") .jnull = .jbool false ∧
     ∃ e, dictLookup (get_pypi_package package_name outcome) (pstr "error") = some (.jstr e)) := by
  cases outcome with
  | ok body =>
    cases h : asDict (dictGet body (pstr "info") (.jobj .nil)) with
    | error msg =>
      right
      simp only [get_pypi_package, pypi_success, h]
      exact ⟨rfl, msg, rfl⟩
    | ok info =>
      left
      simp only [get_pypi_package, pypi_success, h]
      rfl
  | httpStatus code =>
    right
    by_cases h : code = 404 <;> simp only [get_pypi_package, h, if_true, if_false, reduceIte] <;>
      exact ⟨rfl, _, rfl⟩
  | exc desc =>
    right
    exact ⟨rfl, desc, rfl⟩

/-- Every result of the npm client carries a boolean `found` field, and a
string `error` field whenever `found` is false. -/
theorem npm_found_dichotomy (package_name : PyStr) (outcome : FetchOutcome) :
    dictGet (get_npm_package package_name outcome) (pstr "found") .jnull = .jbool true ∨
    (dictGet (get_npm_package package_name outcome) (pstr "found") .jnull = .jbool false ∧
     ∃ e, dictLookup (get_npm_package package_name outcome) (pstr "error") = some (.jstr e)) := by
  cases outcome with
  | ok body =>
    cases h : asDict (dictGet body (pstr "dist-tags") (.jobj .nil)) with
    | error msg =>
      right
      simp only [get_npm_package, npm_success, h]
      exact ⟨rfl, msg, rfl⟩
    | ok distTags =>
      left
      simp only [get_npm_package, npm_success, h]
      rfl
  | httpStatus code =>
    right
    by_cases h : code = 404 <;> simp only [get_npm_package, h, if_true, if_false, reduceIte] <;>
      exact ⟨rfl, _, rfl⟩
  | exc desc =>
    right
    exact ⟨rfl, desc, rfl⟩

/-- Claim C4: a registry client never throws — an HTTP 404 outcome yields
the record with error "Package not found", any other HTTP status error
yields "HTTP <status>", any other exception yields its description, and
every result has a boolean `found` field with a string `error` field
whenever `found` is false. -/
theorem C4_client_errors (package_name : PyStr) (code : Nat) (desc : PyStr) :
    (get_pypi_package package_name (.httpStatus code) =
      notFoundDict (pstr "PyPI") package_name
        (if code = 404 then pstr "Package not found" else pstr "HTTP " ++ pstr (toString code))) ∧
    (get_npm_package package_name (.httpStatus code) =
      notFoundDict (pstr "npm") package_name
        (if code = 404 then pstr "Package not found" else pstr "HTTP " ++ pstr (toString code))) ∧
    (get_pypi_package package_name (.exc desc) = notFoundDict (pstr "PyPI") package_name desc) ∧
    (get_npm_package package_name (.exc desc) = notFoundDict (pstr "npm") package_name desc) ∧
    (∀ outcome, dictGet (get_pypi_package package_name outcome) (pstr "found") .jnull = .jbool true ∨
      (dictGet (get_pypi_package package_name outcome) (pstr "found") .jnull = .jbool false ∧
       ∃ e, dictLookup (get_pypi_package package_name outcome) (pstr "error") = some (.jstr e))) ∧
    (∀ outcome, dictGet (get_npm_package package_name outcome) (pstr "found") .jnull = .jbool true ∨
      (dictGet (get_npm_package package_name outcome) (pstr "found") .jnull = .jbool false ∧
       ∃ e, dictLookup (get_npm_package package_name outcome) (pstr "error") = some (.jstr e))) := by
  refine ⟨?_, ?_, rfl, rfl, pypi_found_dichotomy package_name, npm_found_dichotomy package_name⟩ <;>
    by_cases h : code = 404 <;>
      simp only [get_pypi_package, get_npm_package, h, if_true, if_false, reduceIte]

/-- Claim C1: with no hint, resolution returns the PyPI result when it
reports `found=true`; otherwise the npm result when that reports
`found=true`; otherwise the combined not-found record, whose `error` is
exactly "Package not found in PyPI or npm" and whose only keys are
`found`, `name` and `error` (so the two per-registry error strings are
omitted). -/
theorem C1_smart_fallback (package_name : PyStr) (pypiOutcome npmOutcome : FetchOutcome) :
    (dictGet (get_pypi_package package_name pypiOutcome) (pstr "found") .jnull = .jbool true →
      get_package_smart package_name pypiOutcome npmOutcome
        = get_pypi_package package_name pypiOutcome) ∧
    (dictGet (get_pypi_package package_name pypiOutcome) (pstr "found") .jnull = .jbool false →
      (dictGet (get_npm_package package_name npmOutcome) (pstr "found") .jnull = .jbool true →
        get_package_smart package_name pypiOutcome npmOutcome
          = get_npm_package package_name npmOutcome) ∧
      (dictGet (get_npm_package package_name npmOutcome) (pstr "found") .jnull = .jbool false →
        get_package_smart package_name pypiOutcome npmOutcome = smartNotFound package_name)) ∧
    dictLookup (smartNotFound package_name) (pstr "error")
      = some (.jstr (pstr "Package not found in PyPI or npm")) ∧
    dictKeys (smartNotFound package_name) = [pstr "found", pstr "name", pstr "error"] := by
  refine ⟨fun h1 => ?_, fun h1 => ⟨fun h2 => ?_, fun h2 => ?_⟩, rfl, rfl⟩ <;>
    simp only [get_package_smart, h1, pyTruthy, if_true, if_false, reduceIte] <;>
    simp [h2, pyTruthy]

/-- Concrete instances of claim C1: a PyPI hit is returned as-is, and a
double miss produces the combined not-found record. -/
theorem C1_smart_fallback_witness :
    get_package_smart (pstr "x") (.ok .nil) (.exc []) = get_pypi_package (pstr "x") (.ok .nil) ∧
    get_package_smart (pstr "y") (.httpStatus 404) (.httpStatus 500) = smartNotFound (pstr "y") := by
  refine ⟨(C1_smart_fallback (pstr "x") (.ok .nil) (.exc [])).1 (by decide),
    ((C1_smart_fallback (pstr "y") (.httpStatus 404) (.httpStatus 500)).2.1 (by decide)).2 (by decide)⟩

/-- Claim C2 fails as stated: here the most recent message does contain a
text-kind part (whose text is only whitespace), yet the assembler still
fails with "No text content in message". -/
theorem C2_counterexample :
    (∃ p ∈ (A2AMessage.mk (pstr "user") [MessagePart.mk (pstr "text") (pstr " ") .jnull] none).parts,
       p.kind = pstr "text") ∧
    process_package_query
        [A2AMessage.mk (pstr "user") [MessagePart.mk (pstr "text") (pstr " ") .jnull] none]
        none none (pstr "ctx") (pstr "task") (.exc []) (.exc [])
      = .error (pstr "No text content in message") := by
  exact ⟨⟨_, List.mem_singleton.mpr rfl, rfl⟩, rfl⟩

/-- Claim C2 as amended: the assembler fails with "No message provided"
iff the message list is empty; it fails with "No text content in message"
iff the most recent message exists and its extracted query text is empty —
which happens exactly when that message has no text-kind part or its first
text-kind part's text strips to empty; in every other case it produces a
`TaskResult`. -/
theorem C2_amended (messages : List A2AMessage) (context_id task_id : Option PyStr)
    (fresh_context fresh_task : PyStr) (pypiOutcome npmOutcome : FetchOutcome) :
    (process_package_query messages context_id task_id fresh_context fresh_task
        pypiOutcome npmOutcome = .error (pstr "No message provided") ↔ messages = []) ∧
    (process_package_query messages context_id task_id fresh_context fresh_task
        pypiOutcome npmOutcome = .error (pstr "No text content in message") ↔
      ∃ m, messages.getLast? = some m ∧ extract_query_text m.parts = []) ∧
    (∀ m, messages.getLast? = some m → extract_query_text m.parts ≠ [] →
      ∃ r, process_package_query messages context_id task_id fresh_context fresh_task
        pypiOutcome npmOutcome = .ok r) ∧
    (∀ parts : List MessagePart, extract_query_text parts = [] ↔
      (parts.find? (fun p => decide (p.kind = pstr "text")) = none ∨
       ∃ p, parts.find? (fun p => decide (p.kind = pstr "text")) = some p ∧ pyStrip p.text = [])) := by
  have hchar : ∀ parts : List MessagePart, extract_query_text parts = [] ↔
      (parts.find? (fun p => decide (p.kind = pstr "text")) = none ∨
       ∃ p, parts.find? (fun p => decide (p.kind = pstr "text")) = some p ∧ pyStrip p.text = []) := by
    intro parts
    induction parts with
    | nil => simp [extract_query_text]
    | cons p ps ih =>
      by_cases hk : p.kind = pstr "text"
      · simp [extract_query_text, hk, List.find?_cons_of_pos]
      · simpa [extract_query_text, hk, List.find?_cons_of_neg] using ih
  cases hl : messages.getLast? with
  | none =>
    have hm : messages = [] := List.getLast?_eq_none_iff.mp hl
    subst hm
    refine ⟨by simp [process_package_query], ?_, by simp, hchar⟩
    simp only [process_package_query, List.getLast?_nil]
    constructor
    · intro h
      exact absurd (Except.error.inj h) (by decide)
    · rintro ⟨m, hm, -⟩
      exact absurd hm (by simp)
  | some m =>
    have hne : messages ≠ [] := by
      intro h
      subst h
      simp at hl
    by_cases he : extract_query_text m.parts = []
    · have hp : process_package_query messages context_id task_id fresh_context fresh_task
          pypiOutcome npmOutcome = .error (pstr "No text content in message") := by
        simp [process_package_query, hl, he]
      refine ⟨?_, ?_, ?_, hchar⟩
      · rw [hp]
        constructor
        · intro h
          exact absurd (Except.error.inj h) (by decide)
        · intro h
          exact absurd h hne
      · rw [hp]
        exact ⟨fun _ => ⟨m, rfl, he⟩, fun _ => rfl⟩
      · intro m' hm' hne'
        obtain rfl := Option.some.inj hm'
        exact absurd he hne'
    · have hp : ∃ r, process_package_query messages context_id task_id fresh_context fresh_task
          pypiOutcome npmOutcome = .ok r := by
        simp only [process_package_query, hl]
        rw [if_neg (fun h => he (List.isEmpty_iff.mp h))]
        exact ⟨_, rfl⟩
      obtain ⟨r, hr⟩ := hp
      refine ⟨?_, ?_, ?_, hchar⟩
      · rw [hr]
        exact ⟨fun h => absurd h (by simp), fun h => absurd h hne⟩
      · rw [hr]
        constructor
        · intro h
          exact absurd h (by simp)
        · rintro ⟨m', hm', he'⟩
          obtain rfl := Option.some.inj hm'
          exact absurd he' he
      · intro m' hm' _
        exact ⟨r, hr⟩

/-- Concrete instance of the amended claim C2: a one-message conversation
with non-blank text produces a `TaskResult`. -/
theorem C2_amended_witness :
    ∃ r, process_package_query
        [A2AMessage.mk (pstr "user") [MessagePart.mk (pstr "text") (pstr "check fastapi") .jnull] none]
        none none (pstr "ctx") (pstr "task") (.httpStatus 404) (.httpStatus 404) = .ok r :=
  (C2_amended
      [A2AMessage.mk (pstr "user") [MessagePart.mk (pstr "text") (pstr "check fastapi") .jnull] none]
      none none (pstr "ctx") (pstr "task") (.httpStatus 404) (.httpStatus 404)).2.2.1
    (A2AMessage.mk (pstr "user") [MessagePart.mk (pstr "text") (pstr "check fastapi") .jnull] none)
    rfl (by decide)

/-- Claim C6 fails as stated: a truthy non-object body (here the JSON
string "x") has no `jsonrpc` field, yet the endpoint does not reply 400
with -32600 — `body.get` raises `AttributeError`, the generic exception
handler re-raises on its own `body.get("id")` (src/main.py line 184),
and the unhandled exception escapes, so the framework sends a plain 500
with no JSON-RPC error object at all. -/
theorem C6_counterexample :
    a2a_validate (.jstr (pstr "x")) = .crash ∧
    a2a_validate (.jstr (pstr "x")) ≠ .reject 400 (-32600) := by
  exact ⟨rfl, by decide⟩

/-- Claim C6 as amended, restricted to request bodies that are JSON
objects (every falsy body is likewise rejected with -32600, while a
truthy non-object body makes even the exception handler raise, escaping
the endpoint as an unhandled exception): a missing or wrong `jsonrpc`
field or a missing `id` yields HTTP 400 with code -32600, and a
well-formed envelope whose method is neither "message/send" nor "execute"
yields HTTP 400 with code -32601. -/
theorem C6_amended (fields : JsonFields) :
    (dictGet fields (pstr "jsonrpc") .jnull ≠ .jstr (pstr "2.0") →
      a2a_validate (.jobj fields) = .reject 400 (-32600)) ∧
    (dictLookup fields (pstr "id") = none →
      a2a_validate (.jobj fields) = .reject 400 (-32600)) ∧
    (∀ m, dictGet fields (pstr "jsonrpc") .jnull = .jstr (pstr "2.0") →
      (dictLookup fields (pstr "id")).isSome →
      jsonrpc_request_valid fields = some m →
      m ≠ pstr "message/send" → m ≠ pstr "execute" →
      a2a_validate (.jobj fields) = .reject 400 (-32601)) := by
  refine ⟨fun h1 => ?_, fun h2 => ?_, fun m h1 h2 h3 h4 h5 => ?_⟩
  · cases fields with
    | nil => rfl
    | cons k v rest =>
      simp only [a2a_validate, pyTruthy, JsonFields.isNil, Bool.not_false, Bool.not_true,
        Bool.false_eq_true, if_false]
      rw [if_pos h1]
  · cases fields with
    | nil => rfl
    | cons k v rest =>
      simp only [a2a_validate, pyTruthy, JsonFields.isNil, Bool.not_false, Bool.not_true,
        Bool.false_eq_true, if_false]
      by_cases hj : dictGet (JsonFields.cons k v rest) (pstr "jsonrpc") .jnull ≠ .jstr (pstr "2.0")
      · rw [if_pos hj]
      · rw [if_neg hj, if_pos (by simp [h2])]
  · cases fields with
    | nil => simp [dictLookup] at h2
    | cons k v rest =>
      simp only [a2a_validate, pyTruthy, JsonFields.isNil, Bool.not_false, Bool.not_true,
        Bool.false_eq_true, if_false]
      rw [if_neg (fun hc => hc h1)]
      obtain ⟨w, hw⟩ := Option.isSome_iff_exists.mp h2
      rw [if_neg (by simp [hw])]
      rw [h3]
      show (if m = pstr "message/send" then EnvelopeCheck.accept m
            else if m = pstr "execute" then EnvelopeCheck.accept m
            else EnvelopeCheck.reject 400 (-32601)) = EnvelopeCheck.reject 400 (-32601)
      rw [if_neg h4, if_neg h5]

/-- Concrete instances of the amended claim C6: an empty object, an
object lacking `id`, and a well-formed envelope with the unknown method
"foo". -/
theorem C6_amended_witness :
    a2a_validate (.jobj .nil) = .reject 400 (-32600) ∧
    a2a_validate (.jobj (fieldsOf [(pstr "jsonrpc", .jstr (pstr "2.0"))])) = .reject 400 (-32600) ∧
    a2a_validate (.jobj (fieldsOf
        [(pstr "jsonrpc", .jstr (pstr "2.0")), (pstr "id", .jstr (pstr "1")),
         (pstr "method", .jstr (pstr "foo")), (pstr "params", .jobj .nil)]))
      = .reject 400 (-32601) :=
  ⟨(C6_amended .nil).1 (by decide),
   (C6_amended _).2.1 (by decide),
   (C6_amended _).2.2 (pstr "foo") (by decide) (by decide) (by decide) (by decide) (by decide)⟩

/-- `d.get(k, dflt)` returns the default when the key is absent. -/
theorem dictGet_of_lookup_none {d : JsonFields} {k : PyStr} {dflt : JsonVal}
    (h : dictLookup d k = none) : dictGet d k dflt = dflt := by
  simp [dictGet, h]

/-- `d.get(k, dflt)` returns the stored value when the key is present. -/
theorem dictGet_of_lookup_some {d : JsonFields} {k : PyStr} {v dflt : JsonVal}
    (h : dictLookup d k = some v) : dictGet d k dflt = v := by
  simp [dictGet, h]

set_option maxHeartbeats 1000000 in
/-- Claim C7: on a successful registry response each client fills absent
upstream fields with the documented defaults (version "Unknown",
description "No description", author "Unknown", license "Unknown",
homepage ""), and npm's author and repository fields normalize to a
single string whether the upstream value is a plain string or a
structured object. -/
theorem C7_normalization (package_name : PyStr) (infoFields body distTags : JsonFields)
    (hdt : asDict (dictGet body (pstr "dist-tags") (.jobj .nil)) = .ok distTags) :
    (dictLookup infoFields (pstr "version") = none →
      dictLookup (get_pypi_package package_name (.ok (.cons (pstr "info") (.jobj infoFields) .nil)))
        (pstr "version") = some (.jstr (pstr "Unknown"))) ∧
    (dictLookup infoFields (pstr "summary") = none →
      dictLookup (get_pypi_package package_name (.ok (.cons (pstr "info") (.jobj infoFields) .nil)))
        (pstr "description") = some (.jstr (pstr "No description"))) ∧
    (dictLookup infoFields (pstr "author") = none →
      dictLookup (get_pypi_package package_name (.ok (.cons (pstr "info") (.jobj infoFields) .nil)))
        (pstr "author") = some (.jstr (pstr "Unknown"))) ∧
    (dictLookup infoFields (pstr "license") = none →
      dictLookup (get_pypi_package package_name (.ok (.cons (pstr "info") (.jobj infoFields) .nil)))
        (pstr "license") = some (.jstr (pstr "Unknown"))) ∧
    (dictLookup infoFields (pstr "home_page") = none →
      dictLookup infoFields (pstr "project_url") = none →
      dictLookup (get_pypi_package package_name (.ok (.cons (pstr "info") (.jobj infoFields) .nil)))
        (pstr "homepage") = some (.jstr [])) ∧
    (dictLookup body (pstr "dist-tags") = none →
      dictLookup (get_npm_package package_name (.ok body)) (pstr "version")
        = some (.jstr (pstr "Unknown"))) ∧
    (dictLookup body (pstr "description") = none →
      dictLookup (get_npm_package package_name (.ok body)) (pstr "description")
        = some (.jstr (pstr "No description"))) ∧
    (dictLookup body (pstr "author") = none →
      dictLookup (get_npm_package package_name (.ok body)) (pstr "author")
        = some (.jstr (pstr "Unknown"))) ∧
    (dictLookup body (pstr "license") = none →
      dictLookup (get_npm_package package_name (.ok body)) (pstr "license")
        = some (.jstr (pstr "Unknown"))) ∧
    (dictLookup body (pstr "homepage") = none →
      dictLookup (get_npm_package package_name (.ok body)) (pstr "homepage")
        = some (.jstr [])) ∧
    (∀ s, dictLookup body (pstr "author") = some (.jstr s) →
      dictLookup (get_npm_package package_name (.ok body)) (pstr "author") = some (.jstr s)) ∧
    (∀ afs s, dictLookup body (pstr "author") = some (.jobj afs) →
      dictLookup afs (pstr "name") = some (.jstr s) →
      dictLookup (get_npm_package package_name (.ok body)) (pstr "author") = some (.jstr s)) ∧
    (∀ s, dictLookup body (pstr "repository") = some (.jstr s) →
      dictLookup (get_npm_package package_name (.ok body)) (pstr "repository") = some (.jstr s)) ∧
    (∀ rfs u, dictLookup body (pstr "repository") = some (.jobj rfs) →
      dictLookup rfs (pstr "url") = some (.jstr u) →
      dictLookup (get_npm_package package_name (.ok body)) (pstr "repository") = some (.jstr u)) := by
  have hnpm : get_npm_package package_name (.ok body) = fieldsOf
      [ (pstr "found", .jbool true),
        (pstr "source", .jstr (pstr "npm")),
        (pstr "name", dictGet body (pstr "name") (.jstr package_name)),
        (pstr "version", dictGet distTags (pstr "latest") (.jstr (pstr "Unknown"))),
        (pstr "description", dictGet body (pstr "description") (.jstr (pstr "No description"))),
        (pstr "author", npmAuthor body),
        (pstr "license", dictGet body (pstr "license") (.jstr (pstr "Unknown"))),
        (pstr "homepage", dictGet body (pstr "homepage") (.jstr [])),
        (pstr "repository", npmRepository body) ] := by
    simp only [get_npm_package, npm_success, hdt]
  refine ⟨fun h => ?_, fun h => ?_, fun h => ?_, fun h => ?_, fun h1 h2 => ?_,
    fun h => ?_, fun h => ?_, fun h => ?_, fun h => ?_, fun h => ?_,
    fun s h => ?_, fun afs s h hn => ?_, fun s h => ?_, fun rfs u h hu => ?_⟩
  · show some (dictGet infoFields (pstr "version") (.jstr (pstr "Unknown"))) = _
    rw [dictGet_of_lookup_none h]
  · show some (dictGet infoFields (pstr "summary") (.jstr (pstr "No description"))) = _
    rw [dictGet_of_lookup_none h]
  · show some (dictGet infoFields (pstr "author") (.jstr (pstr "Unknown"))) = _
    rw [dictGet_of_lookup_none h]
  · show some (dictGet infoFields (pstr "license") (.jstr (pstr "Unknown"))) = _
    rw [dictGet_of_lookup_none h]
  · show some (pyOr (dictGet infoFields (pstr "home_page") .jnull)
        (dictGet infoFields (pstr "project_url") (.jstr []))) = _
    rw [dictGet_of_lookup_none h1, dictGet_of_lookup_none h2]
    rfl
  · have hnil : distTags = JsonFields.nil := by
      have : asDict (dictGet body (pstr "dist-tags") (.jobj .nil)) = .ok .nil := by
        rw [dictGet_of_lookup_none h]
        rfl
      rw [hdt] at this
      exact Except.ok.inj this
    rw [hnpm, hnil]
    rfl
  · rw [hnpm]
    show some (dictGet body (pstr "description") (.jstr (pstr "No description"))) = _
    rw [dictGet_of_lookup_none h]
  · rw [hnpm]
    show some (npmAuthor body) = _
    simp only [npmAuthor, h]
    rfl
  · rw [hnpm]
    show some (dictGet body (pstr "license") (.jstr (pstr "Unknown"))) = _
    rw [dictGet_of_lookup_none h]
  · rw [hnpm]
    show some (dictGet body (pstr "homepage") (.jstr [])) = _
    rw [dictGet_of_lookup_none h]
  · rw [hnpm]
    show some (npmAuthor body) = _
    simp only [npmAuthor, h]
    rfl
  · rw [hnpm]
    show some (npmAuthor body) = _
    simp only [npmAuthor, h]
    show some (dictGet afs (pstr "name") (.jstr (pstr "Unknown"))) = _
    rw [dictGet_of_lookup_some hn]
  · rw [hnpm]
    show some (npmRepository body) = _
    simp only [npmRepository, h]
    rfl
  · rw [hnpm]
    show some (npmRepository body) = _
    simp only [npmRepository, h]
    show some (dictGet rfs (pstr "url") (.jstr [])) = _
    rw [dictGet_of_lookup_some hu]

/-- Concrete instances of claim C7: an empty PyPI `info` object defaults
the version, and an npm payload with an object author and a string
repository normalizes both to strings. -/
theorem C7_normalization_witness :
    dictLookup (get_pypi_package (pstr "p") (.ok (.cons (pstr "info") (.jobj .nil) .nil)))
      (pstr "version") = some (.jstr (pstr "Unknown")) ∧
    dictLookup (get_npm_package (pstr "p")
        (.ok (fieldsOf [(pstr "author", .jobj (.cons (pstr "name") (.jstr (pstr "Ann")) .nil)),
                        (pstr "repository", .jstr (pstr "repo"))])))
      (pstr "author") = some (.jstr (pstr "Ann")) ∧
    dictLookup (get_npm_package (pstr "p")
        (.ok (fieldsOf [(pstr "author", .jobj (.cons (pstr "name") (.jstr (pstr "Ann")) .nil)),
                        (pstr "repository", .jstr (pstr "repo"))])))
      (pstr "repository") = some (.jstr (pstr "repo")) :=
  ⟨(C7_normalization (pstr "p") .nil
      (fieldsOf [(pstr "author", .jobj (.cons (pstr "name") (.jstr (pstr "Ann")) .nil)),
                 (pstr "repository", .jstr (pstr "repo"))]) .nil rfl).1 (by decide),
   (C7_normalization (pstr "p") .nil
      (fieldsOf [(pstr "author", .jobj (.cons (pstr "name") (.jstr (pstr "Ann")) .nil)),
                 (pstr "repository", .jstr (pstr "repo"))]) .nil
      rfl).2.2.2.2.2.2.2.2.2.2.2.1
     (.cons (pstr "name") (.jstr (pstr "Ann")) .nil) (pstr "Ann") (by decide) (by decide),
   (C7_normalization (pstr "p") .nil
      (fieldsOf [(pstr "author", .jobj (.cons (pstr "name") (.jstr (pstr "Ann")) .nil)),
                 (pstr "repository", .jstr (pstr "repo"))]) .nil
      rfl).2.2.2.2.2.2.2.2.2.2.2.2.1 (pstr "repo") (by decide)⟩

/-- Claim C8: every successful `TaskResult` has `history` equal to the
input message sequence with exactly one appended reply message (the
status message), so its length is the input count plus one, and its
`artifacts` list is exactly one entry: the `package_info` artifact whose
single data part carries the fetched package info. -/
theorem C8_history_invariant (messages : List A2AMessage) (context_id task_id : Option PyStr)
    (fresh_context fresh_task : PyStr) (pypiOutcome npmOutcome : FetchOutcome) (r : TaskResult)
    (h : process_package_query messages context_id task_id fresh_context fresh_task
      pypiOutcome npmOutcome = .ok r) :
    r.history = messages ++ [r.status.message] ∧
    r.history.length = messages.length + 1 ∧
    (∃ info, r.artifacts =
      [Artifact.mk (pstr "package_info") [MessagePart.mk (pstr "data") [] (.jobj info)]]) ∧
    r.artifacts.length = 1 := by
  cases hl : messages.getLast? with
  | none =>
    simp only [process_package_query, hl] at h
    simp at h
  | some m =>
    simp only [process_package_query, hl] at h
    by_cases he : (extract_query_text m.parts).isEmpty = true
    · rw [if_pos he] at h
      simp at h
    · rw [if_neg he] at h
      obtain rfl := (Except.ok.inj h).symm
      exact ⟨rfl, by simp, ⟨_, rfl⟩, rfl⟩

/-- Concrete instance of claim C8: one input message yields a history
equal to that message followed by the reply, of length two, and a single
`package_info` artifact. -/
theorem C8_history_invariant_witness :
    ∃ r, process_package_query
        [A2AMessage.mk (pstr "user") [MessagePart.mk (pstr "text") (pstr "check requests") .jnull] none]
        none none (pstr "c1") (pstr "t1") (.httpStatus 404) (.httpStatus 404) = .ok r ∧
      r.history =
        [A2AMessage.mk (pstr "user") [MessagePart.mk (pstr "text") (pstr "check requests") .jnull] none]
          ++ [r.status.message] ∧
      r.history.length = 2 ∧
      (∃ info, r.artifacts =
        [Artifact.mk (pstr "package_info") [MessagePart.mk (pstr "data") [] (.jobj info)]]) ∧
      r.artifacts.length = 1 := by
  obtain ⟨r, hr⟩ := Option.isSome_iff_exists.mp
    (by decide :
      (process_package_query
        [A2AMessage.mk (pstr "user") [MessagePart.mk (pstr "text") (pstr "check requests") .jnull] none]
        none none (pstr "c1") (pstr "t1") (.httpStatus 404) (.httpStatus 404)).toOption.isSome = true)
  have hok : process_package_query
      [A2AMessage.mk (pstr "user") [MessagePart.mk (pstr "text") (pstr "check requests") .jnull] none]
      none none (pstr "c1") (pstr "t1") (.httpStatus 404) (.httpStatus 404) = .ok r := by
    revert hr
    cases process_package_query
        [A2AMessage.mk (pstr "user") [MessagePart.mk (pstr "text") (pstr "check requests") .jnull] none]
        none none (pstr "c1") (pstr "t1") (.httpStatus 404) (.httpStatus 404) <;>
      simp [Except.toOption]
  have hinv := C8_history_invariant _ _ _ _ _ _ _ _ hok
  exact ⟨r, hok, hinv.1, hinv.2.1, hinv.2.2.1, hinv.2.2.2⟩

/-- Claim C10: in every produced `TaskResult` the status message is
exactly the final element of the history: an agent-role message whose
task id equals the result's id and whose parts are the single text part
carrying the formatted response for the parsed query. -/
theorem C10_status_message (messages : List A2AMessage) (context_id task_id : Option PyStr)
    (fresh_context fresh_task : PyStr) (pypiOutcome npmOutcome : FetchOutcome) (r : TaskResult)
    (h : process_package_query messages context_id task_id fresh_context fresh_task
      pypiOutcome npmOutcome = .ok r) :
    r.history.getLast? = some r.status.message ∧
    r.status.message.role = pstr "agent" ∧
    r.status.message.taskId = some r.id ∧
    (∀ m, messages.getLast? = some m →
      r.status.message.parts =
        [MessagePart.mk (pstr "text")
          (format_response
            (fetch_package_info (parse_query (extract_query_text m.parts)).1
              (parse_query (extract_query_text m.parts)).2 pypiOutcome npmOutcome)
            (parse_query (extract_query_text m.parts)).1) .jnull]) := by
  cases hl : messages.getLast? with
  | none =>
    simp only [process_package_query, hl] at h
    simp at h
  | some m =>
    simp only [process_package_query, hl] at h
    by_cases he : (extract_query_text m.parts).isEmpty = true
    · rw [if_pos he] at h
      simp at h
    · rw [if_neg he] at h
      obtain rfl := (Except.ok.inj h).symm
      refine ⟨by simp [List.getLast?_concat], rfl, rfl, fun m' hm' => ?_⟩
      obtain rfl := Option.some.inj hm'
      rfl

/-- Concrete instance of claim C10: in a one-message run the status
message closes the history, has the agent role and carries the task id. -/
theorem C10_status_message_witness :
    ∃ r, process_package_query
        [A2AMessage.mk (pstr "user") [MessagePart.mk (pstr "text") (pstr "check lodash") .jnull] none]
        none none (pstr "c2") (pstr "t2") (.exc (pstr "boom")) (.exc (pstr "boom")) = .ok r ∧
      r.history.getLast? = some r.status.message ∧
      r.status.message.role = pstr "agent" ∧
      r.status.message.taskId = some r.id := by
  obtain ⟨r, hr⟩ := Option.isSome_iff_exists.mp
    (by decide :
      (process_package_query
        [A2AMessage.mk (pstr "user") [MessagePart.mk (pstr "text") (pstr "check lodash") .jnull] none]
        none none (pstr "c2") (pstr "t2") (.exc (pstr "boom")) (.exc (pstr "boom"))).toOption.isSome = true)
  have hok : process_package_query
      [A2AMessage.mk (pstr "user") [MessagePart.mk (pstr "text") (pstr "check lodash") .jnull] none]
      none none (pstr "c2") (pstr "t2") (.exc (pstr "boom")) (.exc (pstr "boom")) = .ok r := by
    revert hr
    cases process_package_query
        [A2AMessage.mk (pstr "user") [MessagePart.mk (pstr "text") (pstr "check lodash") .jnull] none]
        none none (pstr "c2") (pstr "t2") (.exc (pstr "boom")) (.exc (pstr "boom")) <;>
      simp [Except.toOption]
  have hmsg := C10_status_message _ _ _ _ _ _ _ _ hok
  exact ⟨r, hok, hmsg.1, hmsg.2.1, hmsg.2.2.1⟩

set_option maxHeartbeats 1000000 in
/-- Claim C9: the formatter is a pure function of the package info and
the requested name that coincides with the line-structured formatter the
spec describes (failure message naming the package and error; otherwise
header, Version / Description / Author / License lines, optional
Homepage line, and a source-specific tail), and the documented not-found
shape evaluates as stated. -/
theorem C9_formatter (info : JsonFields) (requestedName : PyStr) :
    format_response info requestedName = format_spec info requestedName ∧
    format_response (notFoundDict (pstr "PyPI") (pstr "foo") (pstr "Package not found")) (pstr "foo")
      = pstr "❌ Could not find package 'foo'\n\nError: Package not found" := by
  refine ⟨?_, by decide⟩
  simp only [format_response, format_spec]
  by_cases hf : pyTruthy (dictGet info (pstr "found") .jnull) = true
  · simp only [hf, Bool.not_true, Bool.false_eq_true, if_false, if_true]
    by_cases hp : dictGet info (pstr "source") (.jstr (pstr "Unknown")) = .jstr (pstr "PyPI")
    · by_cases hh : pyTruthy (dictGet info (pstr "homepage") (.jstr [])) = true
      · simp only [if_pos hp, if_pos hh, concatAll, List.append_assoc,
          List.append_nil, List.cons_append, List.nil_append]
      · simp only [if_pos hp, if_neg hh, concatAll, List.append_assoc,
          List.append_nil, List.cons_append, List.nil_append]
    · by_cases hn : dictGet info (pstr "source") (.jstr (pstr "Unknown")) = .jstr (pstr "npm")
      · by_cases hh : pyTruthy (dictGet info (pstr "homepage") (.jstr [])) = true
        · by_cases hr : pyTruthy (dictGet info (pstr "repository") (.jstr [])) = true
          · simp only [if_neg hp, if_pos hn, if_pos hh, if_pos hr, concatAll,
              List.append_assoc, List.append_nil, List.cons_append, List.nil_append]
          · simp only [if_neg hp, if_pos hn, if_pos hh, if_neg hr, concatAll,
              List.append_assoc, List.append_nil, List.cons_append, List.nil_append]
        · by_cases hr : pyTruthy (dictGet info (pstr "repository") (.jstr [])) = true
          · simp only [if_neg hp, if_pos hn, if_neg hh, if_pos hr, concatAll,
              List.append_assoc, List.append_nil, List.cons_append, List.nil_append]
          · simp only [if_neg hp, if_pos hn, if_neg hh, if_neg hr, concatAll,
              List.append_assoc, List.append_nil, List.cons_append, List.nil_append]
      · by_cases hh : pyTruthy (dictGet info (pstr "homepage") (.jstr [])) = true
        · simp only [if_neg hp, if_neg hn, if_pos hh, concatAll,
            List.append_assoc, List.append_nil, List.cons_append, List.nil_append]
        · simp only [if_neg hp, if_neg hn, if_neg hh, concatAll,
            List.append_assoc, List.append_nil, List.cons_append, List.nil_append]
  · simp only [Bool.not_eq_true] at hf
    simp only [hf, Bool.not_false, Bool.false_eq_true, if_true, if_false]
